import Mathlib

/-!
Shallow embedding of `main.py` from the naukri-automation repository.

The script drives a browser (Selenium) and an IMAP mailbox.  The embedding
models the pure control flow of each function faithfully; every interaction
with the outside world (web driver creation, element lookup, clicking, IMAP
polling) is abstracted as an oracle parameter (`Option`/`Except`-valued
function) and the functions of the script become total Lean functions of
those oracles.  Machine-level caveat: the Python `\d`/`\w` regex classes are
modelled on ASCII (`Char.isDigit`, alphanumeric or underscore), and the
stable Python builtin `sorted` is modelled by `List.insertionSort`, which is
stable as well.
-/

namespace NaukriAuto

/-- Exceptions that the script distinguishes: `TimeoutException`,
`WebDriverException` (including its subclasses used for driver creation
fallback) and any other exception. -/
inductive Exc where
  | timeout (msg : String)
  | webdriver (msg : String)
  | other (msg : String)
deriving DecidableEq, Repr

/-- Result of `parse_args`: the two CLI flags `--headless` and `--timeout`
(argparse `store_true` with default `False`, and `type=int` with default 20). -/
structure Args where
  headless : Bool
  timeout : Int
deriving DecidableEq, Repr

/-- Decimal digits to a natural number, most significant first. -/
def digitsToNat : List Char → Nat → Nat
  | [], acc => acc
  | c :: cs, acc => digitsToNat cs (acc * 10 + (c.toNat - 48))

/-- The Python conversion `int(str)` on a simple decimal literal (optional sign followed by
digits), as used by argparse for `--timeout`. -/
def pyInt? (s : String) : Option Int :=
  match s.data with
  | [] => none
  | '-' :: ds =>
      if ds ≠ [] ∧ ds.all Char.isDigit then some (-(digitsToNat ds 0 : Int)) else none
  | '+' :: ds =>
      if ds ≠ [] ∧ ds.all Char.isDigit then some ((digitsToNat ds 0 : Int)) else none
  | ds =>
      if ds.all Char.isDigit then some ((digitsToNat ds 0 : Int)) else none

/-- Recognise the argument vector, starting from the defaults
`headless=False`, `timeout=20`; `--headless` stores true, `--timeout N`
stores the integer `N`; anything else is rejected (argparse errors out). -/
def parseArgsLoop : List String → Args → Option Args
  | [], a => some a
  | "--headless" :: rest, a => parseArgsLoop rest { a with headless := true }
  | "--timeout" :: v :: rest, a =>
      match pyInt? v with
      | some n => parseArgsLoop rest { a with timeout := n }
      | none => none
  | _, _ => none

/-- The function `parse_args` of `main.py`. -/
def parse_args (argv : List String) : Option Args :=
  parseArgsLoop argv { headless := false, timeout := 20 }

/-- ASCII lower-casing of one character (Python `str.lower` restricted to
ASCII). -/
def pyLowerChar (c : Char) : Char :=
  if 'A' ≤ c ∧ c ≤ 'Z' then Char.ofNat (c.toNat + 32) else c

/-- ASCII lower-casing of a string. -/
def pyLowerStr (s : String) : String :=
  String.mk (s.data.map pyLowerChar)

/-- The process environment: `none` models an unset variable.  The Python call
`os.getenv(name, default)` is `(env name).getD default`. -/
def Env : Type := String → Option String

/-- The test `os.getenv("GITHUB_ACTIONS", "").lower() == "true"`, used both in
`main` (to force headless) and in `click_naukri_login` (start URL choice). -/
def githubActionsTrue (env : Env) : Bool :=
  pyLowerStr ((env "GITHUB_ACTIONS").getD "") = "true"

/-- The start URL chosen at the top of `click_naukri_login`. -/
def start_url (env : Env) : String :=
  if githubActionsTrue env then "https://login.naukri.com/nLogin/Login.php"
  else "https://www.naukri.com/"

/-- The arguments `main` passes to `click_naukri_login`. -/
structure ClickCall where
  headless : Bool
  timeout : Int
  email : String
  password : String
deriving DecidableEq, Repr

/-- Observable outcome of one run of `main`: the call to
`click_naukri_login` that was made (if any), and the exit value (`.ok n` for
`return n`, `.error e` for a propagated exception). -/
structure MainResult where
  call : Option ClickCall
  exit : Except Exc Int
deriving Repr

/-- The function `main` of `main.py`, with the outcome of `click_naukri_login` abstracted
as an oracle.  It reads `NAUKRI_EMAIL` and `NAUKRI_PASSWORD` (default `""`),
returns 2 when either is falsy, forces headless under GitHub Actions, calls
`click_naukri_login`, and returns 0 on completion. -/
def main (env : Env) (args : Args) (click : ClickCall → Except Exc Unit) : MainResult :=
  let login_email := (env "NAUKRI_EMAIL").getD ""
  let imap_pass := (env "NAUKRI_PASSWORD").getD ""
  if login_email = "" ∨ imap_pass = "" then
    { call := none, exit := .ok 2 }
  else
    let headless := if githubActionsTrue env then true else args.headless
    let call : ClickCall :=
      { headless := headless, timeout := args.timeout,
        email := login_email, password := imap_pass }
    match click call with
    | .ok _ => { call := some call, exit := .ok 0 }
    | .error e => { call := some call, exit := .error e }

/-- The Python `\w` word-character class, on ASCII: letter, digit or
underscore. -/
def isWordChar (c : Char) : Bool :=
  c.isAlphanum || c = '_'

/-- Whether the previous character (if any) is a word character; at the start
of the string there is no previous character. -/
def isWordCharOpt : Option Char → Bool
  | none => false
  | some c => isWordChar c

/-- Whether the first character of the remaining text (if any) is a word
character. -/
def headIsWordChar : List Char → Bool
  | [] => false
  | c :: _ => isWordChar c

/-- The scan `re.findall(r"\b(\d{4,8})\b", body)`: proceed left to right; at a position
starting a maximal digit run whose previous character is not a word
character, the run matches exactly when its length is between 4 and 8 and the
character following it is not a word character (longer runs fail both
boundaries under backtracking, so they produce no match at all).  Scanning
character by character is equivalent to resuming after each match, because
every position strictly inside a digit run has a word character before it. -/
def findCodesAux : Option Char → List Char → List String
  | _, [] => []
  | prev, c :: cs =>
    let run := c :: cs.takeWhile Char.isDigit
    let rest := cs.dropWhile Char.isDigit
    if c.isDigit && !isWordCharOpt prev && decide (4 ≤ run.length)
        && decide (run.length ≤ 8) && !headIsWordChar rest then
      String.mk run :: findCodesAux (some c) cs
    else
      findCodesAux (some c) cs

/-- The list `codes` built in `fetch_otp_via_imap` from one message body. -/
def findCodes (body : String) : List String :=
  findCodesAux none body.data

/-- The quantity `abs(len(c) - 6)` of the sort key. -/
def otpDist (s : String) : Nat :=
  max (s.length - 6) (6 - s.length)

/-- The total preorder induced by the Python sort key
`(abs(len(c) - 6), -len(c))` compared lexicographically. -/
def otpOrder (a b : String) : Prop :=
  otpDist a < otpDist b ∨ (otpDist a = otpDist b ∧ b.length ≤ a.length)

instance : DecidableRel otpOrder := fun a b => by unfold otpOrder; infer_instance

instance : IsTotal String otpOrder := by
  constructor
  intro a b
  unfold otpOrder
  omega

instance : IsTrans String otpOrder := by
  constructor
  intro a b c hab hbc
  unfold otpOrder at *
  omega

/-- The call `sorted(codes, key=lambda c: (abs(len(c) - 6), -len(c)))`: the
Python builtin `sorted` is a stable sort, modelled by the stable
`List.insertionSort`. -/
def codesSorted (body : String) : List String :=
  List.insertionSort otpOrder (findCodes body)

/-- The code `fetch_otp_via_imap` extracts from one message body:
`codes_sorted[0]` when `codes_sorted` is non-empty, else nothing. -/
def extract_otp (body : String) : Option String :=
  (codesSorted body).head?

/-- Rendering of `last_error` in the timeout message (`None` when no
exception was recorded, else the message of the exception). -/
def lastErrStr : Option Exc → String
  | none => "None"
  | some (.timeout m) => m
  | some (.webdriver m) => m
  | some (.other m) => m

/-- The message of the `TimeoutException` raised by `fetch_otp_via_imap`;
it interpolates the original `timeout` argument and the last error. -/
def otpTimeoutMsg (timeout : Nat) (lastErr : Option Exc) : String :=
  "Could not retrieve OTP via IMAP within " ++ toString timeout
    ++ "s. Last error: " ++ lastErrStr lastErr

/-- The `while time.time() < end_time` polling loop of `fetch_otp_via_imap`.
Time is modelled in seconds elapsed since the start; one loop iteration is the
oracle `attempt t`: `.ok (some code)` when a code is extracted and returned,
`.ok none` when the poll finds nothing, `.error e` when the `try` body raises
(the exception is recorded as `last_error`).  Each iteration ends with
`time.sleep(poll_interval)`, so time advances by at least `poll` (the default
`poll_interval` is 5). -/
def fetchLoop (attempt : Nat → Except Exc (Option String)) (timeout endTime poll : Nat)
    (hpoll : 0 < poll) (t : Nat) (lastErr : Option Exc) : Except Exc String :=
  if _h : t < endTime then
    match attempt t with
    | .ok (some code) => .ok code
    | .ok none => fetchLoop attempt timeout endTime poll hpoll (t + poll) lastErr
    | .error e => fetchLoop attempt timeout endTime poll hpoll (t + poll) (some e)
  else
    .error (.timeout (otpTimeoutMsg timeout lastErr))
termination_by endTime - t
decreasing_by all_goals omega

/-- The function `fetch_otp_via_imap`: poll from time 0 with no recorded error, against a
deadline of `max(15, timeout)` seconds from the start. -/
def fetch_otp_via_imap (attempt : Nat → Except Exc (Option String))
    (timeout poll : Nat) (hpoll : 0 < poll) : Except Exc String :=
  fetchLoop attempt timeout (max 15 timeout) poll hpoll 0 none

/-- Selenium locator strategies used by the script. -/
inductive Strategy where
  | id
  | css
  | xpath
deriving DecidableEq, Repr

/-- A `(By.<strategy>, selector)` pair. -/
structure Locator where
  strategy : Strategy
  selector : String
deriving DecidableEq, Repr

/-- The `email_locators` list of `start_otp_login`. -/
def email_locators : List Locator :=
  [⟨.id, "usernameField"⟩,
   ⟨.css, "input[type=\x27email\x27]"⟩,
   ⟨.css, "input[name*=\x27email\x27 i]"⟩,
   ⟨.css, "input[placeholder*=\x27Email\x27 i]"⟩]

/-- The `single_locators` list of `fill_otp` (single-field fallback). -/
def single_locators : List Locator :=
  [⟨.xpath, "//input[contains(@name,\x27otp\x27 i) or contains(@id,\x27otp\x27 i)]"⟩,
   ⟨.css, "input[name*=\x27otp\x27 i], input[id*=\x27otp\x27 i]"⟩]

/-- The `edit_locators` list of `navigate_profile_and_save`. -/
def edit_locators : List Locator :=
  [⟨.xpath, "//em[contains(@class,\x27icon\x27) and contains(@class,\x27edit\x27) and contains(normalize-space(.), \x27editOneTheme\x27)]"⟩,
   ⟨.css, "em.icon.edit"⟩]

/-- The `save_locators` list of `navigate_profile_and_save`. -/
def save_locators : List Locator :=
  [⟨.id, "saveBasicDetailsBtn"⟩,
   ⟨.css, "#saveBasicDetailsBtn"⟩,
   ⟨.css, "button#saveBasicDetailsBtn.btn-dark-ot"⟩,
   ⟨.xpath, "//button[@id=\x27saveBasicDetailsBtn\x27 or (contains(@class,\x27btn-dark-ot\x27) and (normalize-space(.)=\x27Save\x27 or contains(@aria-label,\x27Save\x27)))]"⟩]

/-- The `for loc in locators: try: el = wait.until(...); if el: break;
except TimeoutException: continue` pattern: the oracle `find` says whether a
wait on a locator yields an element (`some el`) or times out (`none`); the
loop keeps the first element found. -/
def firstLocated {El : Type} (find : Locator → Option El) : List Locator → Option El
  | [] => none
  | loc :: rest =>
    match find loc with
    | some el => some el
    | none => firstLocated find rest

/-- The email-field section of `start_otp_login`: walk `email_locators`;
when none yields an element, raise
`TimeoutException("Email field not found for OTP login")`. -/
def start_otp_login_email_field {El : Type} (find : Locator → Option El) : Except Exc El :=
  match firstLocated find email_locators with
  | some el => .ok el
  | none => .error (.timeout "Email field not found for OTP login")

/-- Python `str.strip()`: drop whitespace from both ends. -/
def pyStrip (s : String) : String :=
  String.mk (((s.data.dropWhile Char.isWhitespace).reverse.dropWhile Char.isWhitespace).reverse)

/-- The field-selection part of `fill_otp`: `digits = list(code.strip())`;
use the multi-input boxes when `inputs` is non-empty and has at least
`len(digits)` entries, else fall back to `single_locators` and raise
`TimeoutException("OTP input field not found")` when they are exhausted. -/
def fill_otp_fields {El : Type} (find : Locator → Option El) (multiInputs : List El)
    (code : String) : Except Exc (List El ⊕ El) :=
  if multiInputs.isEmpty = false ∧ (pyStrip code).length ≤ multiInputs.length then
    .ok (.inl multiInputs)
  else
    match firstLocated find single_locators with
    | some f => .ok (.inr f)
    | none => .error (.timeout "OTP input field not found")

/-- The required-element part of `navigate_profile_and_save`: the edit icon
must be located (else `TimeoutException("Edit icon not found")`), then the
save button (else `TimeoutException("Save button not found")`). -/
def navigate_profile_and_save_required {El : Type} (find : Locator → Option El) :
    Except Exc (El × El) :=
  match firstLocated find edit_locators with
  | none => .error (.timeout "Edit icon not found")
  | some elEdit =>
    match firstLocated find save_locators with
    | none => .error (.timeout "Save button not found")
    | some elSave => .ok (elEdit, elSave)

/-- The helper `try_click_css` (inner function of `click_naukri_login`): find the element
by CSS selector then JS-click it; any exception in either step yields
`False`, success yields `True`.  Nothing propagates. -/
def try_click_css {El : Type} (find : Except Exc El) (clickEl : El → Except Exc Unit) : Bool :=
  match find with
  | .error _ => false
  | .ok el =>
    match clickEl el with
    | .error _ => false
    | .ok _ => true

/-- The helper `try_click_xpath`: identical control flow with an XPath lookup. -/
def try_click_xpath {El : Type} (find : Except Exc El) (clickEl : El → Except Exc Unit) : Bool :=
  match find with
  | .error _ => false
  | .ok el =>
    match clickEl el with
    | .error _ => false
    | .ok _ => true

/-- An `except TimeoutException: ...pass/log` handler around a block:
a `TimeoutException` is swallowed, everything else passes through. -/
def catch_timeout (r : Except Exc Unit) : Except Exc Unit :=
  match r with
  | .error (.timeout _) => .ok ()
  | r => r

/-- The OTP flow inside `click_naukri_login`: `start_otp_login`, then
`fetch_otp_via_imap`, then `fill_otp` on the fetched code, then
`navigate_profile_and_save` wrapped in its own
`except TimeoutException` handler. -/
def otp_flow (startOtp : Except Exc Unit) (fetchOtp : Except Exc String)
    (fill : String → Except Exc Unit) (nav : Except Exc Unit) : Except Exc Unit := do
  startOtp
  let otp ← fetchOtp
  fill otp
  catch_timeout nav

/-- The body of `click_naukri_login` after driver creation, reduced to its
exception structure: the OTP flow under `except TimeoutException`, then the
soft-assertion wait under its own `except TimeoutException`. -/
def click_body (otpFlow softAssert : Except Exc Unit) : Except Exc Unit := do
  catch_timeout otpFlow
  catch_timeout softAssert

/-- Events observable on the WebDriver during a run. -/
inductive DriverEvent where
  | quit
deriving DecidableEq, Repr

/-- Outcome of one run of `click_naukri_login`: whether a driver was
successfully created, the driver events of the `finally` block, and the
result of the function. -/
structure ClickRun where
  driver : Bool
  events : List DriverEvent
  result : Except Exc Unit
deriving Repr

/-- The function `click_naukri_login`, as a function of the driver-creation oracles and the
body outcome: Chrome is tried first; on `WebDriverException` Safari is tried;
if both fail the exception propagates with no driver.  The whole body runs
under `try ... finally`: when a driver exists, `driver.quit()` runs before
returning or re-raising. -/
def click_naukri_login_run (chrome safari : Except Exc Unit)
    (body : Except Exc Unit) : ClickRun :=
  match chrome with
  | .ok _ => { driver := true, events := [.quit], result := body }
  | .error e =>
    match e with
    | .webdriver _ =>
      match safari with
      | .ok _ => { driver := true, events := [.quit], result := body }
      | .error e2 => { driver := false, events := [], result := .error e2 }
    | e => { driver := false, events := [], result := .error e }

/-- A process environment with no variables set (witness fixture). -/
def sampleEnvUnset : Env := fun _ => none

/-- A process environment with both credentials set (witness fixture). -/
def sampleEnvCreds : Env := fun k =>
  if k = "NAUKRI_EMAIL" then some "user@example.com"
  else if k = "NAUKRI_PASSWORD" then some "app-password"
  else none

/-- A GitHub Actions environment: credentials set and
`GITHUB_ACTIONS=True` (witness fixture; mixed case to exercise `lower()`). -/
def sampleEnvActions : Env := fun k =>
  if k = "GITHUB_ACTIONS" then some "True" else sampleEnvCreds k

/-! ## Helper lemmas -/

/-- When every locator alternative misses, the fallback loop produces no
element. -/
theorem firstLocated_eq_none {El : Type} (find : Locator → Option El) :
    ∀ locs : List Locator, (∀ loc ∈ locs, find loc = none) →
      firstLocated find locs = none := by
  intro locs
  induction locs with
  | nil => intro _; rfl
  | cons loc rest ih =>
    intro h
    unfold firstLocated
    rw [h loc (List.mem_cons_self loc rest)]
    exact ih fun l hl => h l (List.mem_cons_of_mem loc hl)

/-- When `click` always completes, `main` with non-empty credentials returns
exit code 0. -/
theorem main_returns_zero (env : Env) (args : Args) (click : ClickCall → Except Exc Unit)
    (h1 : (env "NAUKRI_EMAIL").getD "" ≠ "") (h2 : (env "NAUKRI_PASSWORD").getD "" ≠ "")
    (hclick : ∀ c, click c = .ok ()) : (main env args click).exit = .ok 0 := by
  simp only [main]
  rw [if_neg (by simp [h1, h2])]
  rw [hclick]

/-! ## Claim theorems -/

/-- C1: `main` returns exit code 2, without calling `click_naukri_login`,
whenever `NAUKRI_EMAIL` or `NAUKRI_PASSWORD` is unset or empty; when both are
non-empty and `click_naukri_login` completes, `main` returns 0. -/
theorem main_exit_codes (env : Env) (args : Args) (click : ClickCall → Except Exc Unit) :
    (((env "NAUKRI_EMAIL").getD "" = "" ∨ (env "NAUKRI_PASSWORD").getD "" = "") →
       main env args click = { call := none, exit := .ok 2 })
    ∧ ((env "NAUKRI_EMAIL").getD "" ≠ "" → (env "NAUKRI_PASSWORD").getD "" ≠ "" →
       (∀ c, click c = .ok ()) → (main env args click).exit = .ok 0) := by
  constructor
  · intro h
    simp only [main]
    rw [if_pos h]
  · intro h1 h2 hclick
    exact main_returns_zero env args click h1 h2 hclick

/-- Witness for C1: with no environment variables, `main` returns 2 and makes
no call; with both credentials set and a completing `click`, it returns 0. -/
theorem main_exit_codes_witness :
    main sampleEnvUnset { headless := false, timeout := 20 } (fun _ => .ok ())
        = { call := none, exit := .ok 2 }
    ∧ (main sampleEnvCreds { headless := false, timeout := 20 } (fun _ => .ok ())).exit
        = .ok 0 :=
  ⟨(main_exit_codes sampleEnvUnset { headless := false, timeout := 20 } (fun _ => .ok ())).1
      (Or.inl rfl),
   (main_exit_codes sampleEnvCreds { headless := false, timeout := 20 } (fun _ => .ok ())).2
      (by decide) (by decide) (fun _ => rfl)⟩

/-- C7: `main` only ever invokes `click_naukri_login` with a non-empty email
and a non-empty password. -/
theorem click_called_with_nonempty_credentials (env : Env) (args : Args)
    (click : ClickCall → Except Exc Unit) (c : ClickCall)
    (h : (main env args click).call = some c) :
    c.email ≠ "" ∧ c.password ≠ "" := by
  by_cases hcond : (env "NAUKRI_EMAIL").getD "" = "" ∨ (env "NAUKRI_PASSWORD").getD "" = ""
  · simp only [main] at h
    rw [if_pos hcond] at h
    exact absurd h (by simp)
  · push_neg at hcond
    simp only [main] at h
    rw [if_neg (by simp [hcond.1, hcond.2])] at h
    split at h <;>
      · simp only [Option.some.injEq] at h
        subst h
        exact ⟨hcond.1, hcond.2⟩

/-- Witness for C7: in the credentials environment the recorded call carries
non-empty email and password. -/
theorem click_called_with_nonempty_credentials_witness :
    (main sampleEnvCreds { headless := false, timeout := 20 } (fun _ => .ok ())).call
        = some { headless := false, timeout := 20,
                 email := "user@example.com", password := "app-password" }
    ∧ ("user@example.com" ≠ "" ∧ "app-password" ≠ "") :=
  ⟨rfl,
   click_called_with_nonempty_credentials sampleEnvCreds
     { headless := false, timeout := 20 } (fun _ => .ok ())
     { headless := false, timeout := 20,
       email := "user@example.com", password := "app-password" } rfl⟩

/-- C8: `parse_args` accepts exactly `--headless` and `--timeout`: the empty
argument list yields `headless=False`, `timeout=20`; `--headless` stores
true; `--timeout N` stores the integer `N`; an unknown flag is rejected. -/
theorem parse_args_flags :
    parse_args [] = some { headless := false, timeout := 20 }
    ∧ parse_args ["--headless"] = some { headless := true, timeout := 20 }
    ∧ (∀ s n, pyInt? s = some n →
        parse_args ["--timeout", s] = some { headless := false, timeout := n })
    ∧ parse_args ["--verbose"] = none := by
  refine ⟨rfl, rfl, ?_, rfl⟩
  intro s n h
  simp [parse_args, parseArgsLoop, h]

/-- Witness for C8: `--timeout 30` parses to timeout 30. -/
theorem parse_args_flags_witness :
    pyInt? "30" = some 30
    ∧ parse_args ["--timeout", "30"] = some { headless := false, timeout := 30 } :=
  ⟨by decide, parse_args_flags.2.2.1 "30" 30 (by decide)⟩

/-- C10: when `GITHUB_ACTIONS` lower-cases to `"true"`, `main` forces
headless regardless of the `--headless` flag, and the start URL is the
Naukri login page rather than the home page. -/
theorem github_actions_forces_headless_and_login_url (env : Env) (args : Args)
    (click : ClickCall → Except Exc Unit)
    (h : pyLowerStr ((env "GITHUB_ACTIONS").getD "") = "true") :
    (∀ c, (main env args click).call = some c → c.headless = true)
    ∧ start_url env = "https://login.naukri.com/nLogin/Login.php" := by
  have hg : githubActionsTrue env = true := by
    simp [githubActionsTrue, h]
  constructor
  · intro c hc
    by_cases hcond : (env "NAUKRI_EMAIL").getD "" = "" ∨ (env "NAUKRI_PASSWORD").getD "" = ""
    · simp only [main] at hc
      rw [if_pos hcond] at hc
      exact absurd hc (by simp)
    · push_neg at hcond
      simp only [main] at hc
      rw [if_neg (by simp [hcond.1, hcond.2])] at hc
      split at hc <;>
        · simp only [Option.some.injEq] at hc
          subst hc
          simp [hg]
  · simp [start_url, hg]

/-- Witness for C10: `GITHUB_ACTIONS=True` (mixed case) forces headless on
the recorded call even though `--headless` was not given, and selects the
login-page URL. -/
theorem github_actions_witness :
    pyLowerStr ((sampleEnvActions "GITHUB_ACTIONS").getD "") = "true"
    ∧ ((∀ c, (main sampleEnvActions { headless := false, timeout := 20 }
          (fun _ => .ok ())).call = some c → c.headless = true)
       ∧ start_url sampleEnvActions = "https://login.naukri.com/nLogin/Login.php") :=
  ⟨by decide,
   github_actions_forces_headless_and_login_url sampleEnvActions
     { headless := false, timeout := 20 } (fun _ => .ok ()) (by decide)⟩

/-- C4: whenever a WebDriver was successfully created (Chrome, or Safari
after a Chrome `WebDriverException`), `driver.quit()` runs in the `finally`
block, whatever the body did. -/
theorem driver_quit_always (chrome safari body : Except Exc Unit)
    (h : (click_naukri_login_run chrome safari body).driver = true) :
    DriverEvent.quit ∈ (click_naukri_login_run chrome safari body).events := by
  cases chrome with
  | ok u => simp [click_naukri_login_run]
  | error e =>
    cases e with
    | webdriver m =>
      cases safari with
      | ok u => simp [click_naukri_login_run]
      | error e2 => simp [click_naukri_login_run] at h
    | timeout m => simp [click_naukri_login_run] at h
    | other m => simp [click_naukri_login_run] at h

/-- Witness for C4: Chrome driver created, body raises; `quit` still runs. -/
theorem driver_quit_always_witness :
    (click_naukri_login_run (.ok ()) (.ok ()) (.error (.other "boom"))).driver = true
    ∧ DriverEvent.quit ∈
        (click_naukri_login_run (.ok ()) (.ok ()) (.error (.other "boom"))).events :=
  ⟨rfl, driver_quit_always (.ok ()) (.ok ()) (.error (.other "boom")) rfl⟩

/-- C3: when every locator alternative for a required element times out, the
operation raises a `TimeoutException`: the email field of `start_otp_login`,
the single OTP field of `fill_otp` (when the multi-input branch is not
taken), and the edit icon and save button of `navigate_profile_and_save`. -/
theorem exhausted_locators_raise_timeout {El : Type} (find : Locator → Option El)
    (multiInputs : List El) (code : String) :
    ((∀ loc ∈ email_locators, find loc = none) →
       start_otp_login_email_field find
         = .error (.timeout "Email field not found for OTP login"))
    ∧ (¬(multiInputs.isEmpty = false ∧ (pyStrip code).length ≤ multiInputs.length) →
       (∀ loc ∈ single_locators, find loc = none) →
       fill_otp_fields find multiInputs code
         = .error (.timeout "OTP input field not found"))
    ∧ ((∀ loc ∈ edit_locators, find loc = none) →
       navigate_profile_and_save_required find
         = .error (.timeout "Edit icon not found"))
    ∧ (∀ elEdit, firstLocated find edit_locators = some elEdit →
       (∀ loc ∈ save_locators, find loc = none) →
       navigate_profile_and_save_required find
         = .error (.timeout "Save button not found")) := by
  refine ⟨?_, ?_, ?_, ?_⟩
  · intro h
    unfold start_otp_login_email_field
    rw [firstLocated_eq_none find email_locators h]
  · intro hmulti h
    unfold fill_otp_fields
    rw [if_neg hmulti]
    rw [firstLocated_eq_none find single_locators h]
  · intro h
    unfold navigate_profile_and_save_required
    rw [firstLocated_eq_none find edit_locators h]
  · intro elEdit hEdit h
    unfold navigate_profile_and_save_required
    rw [hEdit]
    rw [firstLocated_eq_none find save_locators h]

/-- Witness for C3: an oracle finding nothing exhausts the email, single-OTP
and edit locators; an oracle finding only the edit icon exhausts the save
locators. -/
theorem exhausted_locators_witness :
    start_otp_login_email_field (fun _ => (none : Option Unit))
        = .error (.timeout "Email field not found for OTP login")
    ∧ fill_otp_fields (fun _ => (none : Option Unit)) [] "4567"
        = .error (.timeout "OTP input field not found")
    ∧ navigate_profile_and_save_required (fun _ => (none : Option Unit))
        = .error (.timeout "Edit icon not found")
    ∧ navigate_profile_and_save_required
          (fun loc => if loc ∈ edit_locators then some () else none)
        = .error (.timeout "Save button not found") := by
  refine ⟨(@exhausted_locators_raise_timeout Unit (fun _ => none) [] "4567").1
      (fun _ _ => rfl),
    (@exhausted_locators_raise_timeout Unit (fun _ => none) [] "4567").2.1
      (by decide) (fun _ _ => rfl),
    (@exhausted_locators_raise_timeout Unit (fun _ => none) [] "4567").2.2.1
      (fun _ _ => rfl),
    (@exhausted_locators_raise_timeout Unit
        (fun loc => if loc ∈ edit_locators then some () else none) [] "4567").2.2.2
      () (by decide) (by decide)⟩

/-- C5: UI failures in the OTP flow are best-effort: the popup helpers
`try_click_css` and `try_click_xpath` turn any exception into `False`
(they are `Bool`-valued, so nothing propagates), and when every failure in
`start_otp_login` / `fetch_otp_via_imap` / `fill_otp` /
`navigate_profile_and_save` (and the soft assertion) is a
`TimeoutException`, `click_naukri_login` completes normally and `main`
exits 0. -/
theorem otp_failures_best_effort {El : Type} (find : Except Exc El)
    (clickEl : El → Except Exc Unit)
    (s : Except Exc Unit) (f : Except Exc String) (fill : String → Except Exc Unit)
    (nav : Except Exc Unit) (sa : Except Exc Unit) (safari : Except Exc Unit)
    (env : Env) (args : Args) :
    ((∀ e, find = .error e →
        try_click_css find clickEl = false ∧ try_click_xpath find clickEl = false)
     ∧ (∀ el e, find = .ok el → clickEl el = .error e →
        try_click_css find clickEl = false ∧ try_click_xpath find clickEl = false))
    ∧ ((∀ e, s = .error e → ∃ m, e = .timeout m) →
       (∀ e, f = .error e → ∃ m, e = .timeout m) →
       (∀ otp e, fill otp = .error e → ∃ m, e = .timeout m) →
       (∀ e, nav = .error e → ∃ m, e = .timeout m) →
       (∀ e, sa = .error e → ∃ m, e = .timeout m) →
       (click_naukri_login_run (.ok ()) safari
           (click_body (otp_flow s f fill nav) sa)).result = .ok ()
       ∧ ((env "NAUKRI_EMAIL").getD "" ≠ "" → (env "NAUKRI_PASSWORD").getD "" ≠ "" →
          (main env args (fun _ =>
            (click_naukri_login_run (.ok ()) safari
              (click_body (otp_flow s f fill nav) sa)).result)).exit = .ok 0)) := by
  have hcatch : ∀ r : Except Exc Unit, (∀ e, r = .error e → ∃ m, e = .timeout m) →
      catch_timeout r = .ok () := by
    intro r hr
    cases r with
    | ok u => cases u; rfl
    | error e =>
      obtain ⟨m, hm⟩ := hr e rfl
      subst hm
      rfl
  constructor
  · constructor
    · intro e he
      subst he
      exact ⟨rfl, rfl⟩
    · intro el e hel hce
      subst hel
      simp [try_click_css, try_click_xpath, hce]
  · intro hs hf hfill hnav hsa
    have hbody : click_body (otp_flow s f fill nav) sa = .ok () := by
      have hflow : ∀ e, otp_flow s f fill nav = .error e → ∃ m, e = .timeout m := by
        intro e he
        cases s with
        | error es =>
          replace he : (Except.error es : Except Exc Unit) = Except.error e := he
          cases he
          exact hs _ rfl
        | ok u =>
          cases u
          cases f with
          | error ef =>
            replace he : (Except.error ef : Except Exc Unit) = Except.error e := he
            cases he
            exact hf _ rfl
          | ok otp =>
            replace he : Except.bind (fill otp) (fun _ => catch_timeout nav)
                = Except.error e := he
            cases hfo : fill otp with
            | error efi =>
              rw [hfo] at he
              replace he : (Except.error efi : Except Exc Unit) = Except.error e := he
              cases he
              exact hfill otp _ hfo
            | ok u2 =>
              rw [hfo] at he
              replace he : catch_timeout nav = Except.error e := he
              rw [hcatch nav hnav] at he
              cases he
      unfold click_body
      rw [hcatch _ hflow]
      exact hcatch sa hsa
    have hresult : (click_naukri_login_run (.ok ()) safari
        (click_body (otp_flow s f fill nav) sa)).result = .ok () := by
      rw [hbody]
      rfl
    refine ⟨hresult, ?_⟩
    intro h1 h2
    exact main_returns_zero env args _ h1 h2 (fun _ => hresult)

/-- Witness for C5: a missing popup element makes the helpers return `False`,
and an IMAP timeout inside the OTP flow still lets `click_naukri_login`
complete and `main` return 0. -/
theorem otp_failures_best_effort_witness :
    (try_click_css (Except.error (Exc.other "no such element"))
        (fun _ : Unit => Except.ok ()) = false
     ∧ try_click_xpath (Except.error (Exc.other "no such element"))
        (fun _ : Unit => Except.ok ()) = false)
    ∧ ((click_naukri_login_run (.ok ()) (.ok ())
          (click_body (otp_flow (.ok ()) (.error (.timeout "IMAP timed out"))
            (fun _ => .ok ()) (.ok ())) (.ok ()))).result = .ok ()
       ∧ (main sampleEnvCreds { headless := true, timeout := 20 } (fun _ =>
            (click_naukri_login_run (.ok ()) (.ok ())
              (click_body (otp_flow (.ok ()) (.error (.timeout "IMAP timed out"))
                (fun _ => .ok ()) (.ok ())) (.ok ()))).result)).exit = .ok 0) := by
  have h := @otp_failures_best_effort Unit (Except.error (Exc.other "no such element"))
    (fun _ => Except.ok ()) (.ok ()) (.error (.timeout "IMAP timed out"))
    (fun _ => .ok ()) (.ok ()) (.ok ()) (.ok ())
    sampleEnvCreds { headless := true, timeout := 20 }
  refine ⟨h.1.1 (Exc.other "no such element") rfl, ?_⟩
  have h2 := h.2 (fun e he => by cases he) (fun e he => by cases he; exact ⟨_, rfl⟩)
    (fun otp e he => by cases he) (fun e he => by cases he) (fun e he => by cases he)
  exact ⟨h2.1, h2.2 (by decide) (by decide)⟩

/-- Every string produced by the regex scan is the rendering of a digit run
of length 4 to 8. -/
theorem mem_findCodesAux (s : String) :
    ∀ (l : List Char) (prev : Option Char), s ∈ findCodesAux prev l →
      ∃ run : List Char, s = String.mk run ∧ (∀ c ∈ run, c.isDigit = true)
        ∧ 4 ≤ run.length ∧ run.length ≤ 8 := by
  intro l
  induction l with
  | nil =>
    intro prev h
    simp [findCodesAux] at h
  | cons c cs ih =>
    intro prev h
    simp only [findCodesAux] at h
    split at h
    · rename_i hguard
      simp only [Bool.and_eq_true, decide_eq_true_eq, Bool.not_eq_true'] at hguard
      rcases List.mem_cons.mp h with hhead | htail
      · refine ⟨c :: cs.takeWhile Char.isDigit, hhead, ?_, ?_, ?_⟩
        · intro x hx
          rcases List.mem_cons.mp hx with hx | hx
          · subst hx
            exact hguard.1.1.1.1
          · exact List.mem_takeWhile_imp hx
        · exact hguard.1.1.2
        · exact hguard.1.2
      · exact ih (some c) htail
    · exact ih (some c) h

/-- The head of the sorted code list is one of the codes and minimises the
sort key. -/
theorem extract_otp_min (body code : String) (h : extract_otp body = some code) :
    code ∈ findCodes body ∧ ∀ c ∈ findCodes body, otpOrder code c := by
  have hperm := List.perm_insertionSort otpOrder (findCodes body)
  have hsorted := List.sorted_insertionSort otpOrder (findCodes body)
  simp only [extract_otp] at h
  cases hL : codesSorted body with
  | nil =>
    rw [hL] at h
    cases h
  | cons a t =>
    rw [hL] at h
    simp only [List.head?_cons, Option.some.injEq] at h
    subst h
    rw [codesSorted] at hL
    rw [hL] at hperm hsorted
    constructor
    · exact hperm.mem_iff.mp (List.mem_cons_self _ _)
    · intro c hc
      rcases List.mem_cons.mp (hperm.mem_iff.mpr hc) with hch | hct
      · subst hch
        unfold otpOrder
        omega
      · exact List.rel_of_sorted_cons hsorted c hct

/-- C2: any string returned by the body-scanning step of
`fetch_otp_via_imap` is a digit run found by the regex, of length at least 4
and at most 8, and contains no non-digit character. -/
theorem otp_code_is_4_to_8_digits (body code : String) (h : extract_otp body = some code) :
    code ∈ findCodes body ∧ (∀ c ∈ code.data, c.isDigit = true)
    ∧ 4 ≤ code.length ∧ code.length ≤ 8 := by
  obtain ⟨hmem, _⟩ := extract_otp_min body code h
  obtain ⟨run, hrun, hdig, h4, h8⟩ := mem_findCodesAux code body.data none hmem
  subst hrun
  exact ⟨hmem, hdig, h4, h8⟩

/-- Witness for C2: a concrete body whose extracted code is the 6-digit run
`472913`. -/
theorem otp_code_is_4_to_8_digits_witness :
    extract_otp "Your OTP is 472913." = some "472913"
    ∧ ("472913" ∈ findCodes "Your OTP is 472913."
       ∧ (∀ c ∈ "472913".data, c.isDigit = true)
       ∧ 4 ≤ "472913".length ∧ "472913".length ≤ 8) :=
  ⟨by decide, otp_code_is_4_to_8_digits "Your OTP is 472913." "472913" (by decide)⟩

/-- C9: among the 4-to-8-digit runs found in a body, the returned code has a
length closest to 6, a longer run winning a tie; in particular if any
6-digit run was found, a 6-digit code is returned. -/
theorem otp_prefers_length_six (body code : String) (h : extract_otp body = some code) :
    (∀ c ∈ findCodes body,
        otpDist code ≤ otpDist c ∧ (otpDist code = otpDist c → c.length ≤ code.length))
    ∧ ((∃ c ∈ findCodes body, c.length = 6) → code.length = 6) := by
  obtain ⟨hmem, hmin⟩ := extract_otp_min body code h
  have hpart1 : ∀ c ∈ findCodes body,
      otpDist code ≤ otpDist c ∧ (otpDist code = otpDist c → c.length ≤ code.length) := by
    intro c hc
    have ho := hmin c hc
    unfold otpOrder at ho
    omega
  refine ⟨hpart1, ?_⟩
  rintro ⟨c6, hc6, hlen6⟩
  have hd6 : otpDist c6 = 0 := by
    unfold otpDist
    omega
  have hd : otpDist code ≤ otpDist c6 := (hpart1 c6 hc6).1
  have hd0 : otpDist code = 0 := by omega
  unfold otpDist at hd0
  omega

/-- Witness for C9: with an 8-digit run appearing before a 6-digit run, the
6-digit run is returned. -/
theorem otp_prefers_length_six_witness :
    extract_otp "ref 12345678 code 472913" = some "472913"
    ∧ ((∀ c ∈ findCodes "ref 12345678 code 472913",
          otpDist "472913" ≤ otpDist c
          ∧ (otpDist "472913" = otpDist c → c.length ≤ "472913".length))
       ∧ ((∃ c ∈ findCodes "ref 12345678 code 472913", c.length = 6) →
          "472913".length = 6)) :=
  ⟨by decide, otp_prefers_length_six "ref 12345678 code 472913" "472913" (by decide)⟩

/-- The polling loop either returns a code obtained from an attempt made
strictly before the deadline, or raises the timeout error carrying the last
recorded exception.  Strong induction on the remaining time. -/
theorem fetchLoop_result (attempt : Nat → Except Exc (Option String))
    (timeout poll : Nat) (hpoll : 0 < poll) :
    ∀ (n endTime t : Nat) (lastErr : Option Exc), endTime - t ≤ n →
    (∃ t2 code, t ≤ t2 ∧ t2 < endTime ∧ attempt t2 = .ok (some code)
       ∧ fetchLoop attempt timeout endTime poll hpoll t lastErr = .ok code)
    ∨ (∃ le, fetchLoop attempt timeout endTime poll hpoll t lastErr
         = .error (.timeout (otpTimeoutMsg timeout le))) := by
  intro n
  induction n with
  | zero =>
    intro endTime t lastErr hle
    right
    rw [fetchLoop]
    rw [dif_neg (by omega)]
    exact ⟨lastErr, rfl⟩
  | succ n ih =>
    intro endTime t lastErr hle
    by_cases h : t < endTime
    · rw [fetchLoop, dif_pos h]
      cases ha : attempt t with
      | ok o =>
        cases o with
        | some code =>
          left
          exact ⟨t, code, le_refl t, h, ha, rfl⟩
        | none =>
          rcases ih endTime (t + poll) lastErr (by omega) with
            ⟨t2, code, ht2, hlt, hat, heq⟩ | ⟨le, heq⟩
          · left
            exact ⟨t2, code, by omega, hlt, hat, heq⟩
          · right
            exact ⟨le, heq⟩
      | error e =>
        rcases ih endTime (t + poll) (some e) (by omega) with
          ⟨t2, code, ht2, hlt, hat, heq⟩ | ⟨le, heq⟩
        · left
          exact ⟨t2, code, by omega, hlt, hat, heq⟩
        · right
          exact ⟨le, heq⟩
    · right
      rw [fetchLoop, dif_neg h]
      exact ⟨lastErr, rfl⟩

/-- C6: `fetch_otp_via_imap` always terminates: either some poll made before
the deadline `max(15, timeout)` returned a code, or it raises a
`TimeoutException` reporting the timeout and the last error; and once the
current time reaches the deadline the loop body never runs again. -/
theorem fetch_otp_via_imap_terminates (attempt : Nat → Except Exc (Option String))
    (timeout poll : Nat) (hpoll : 0 < poll) :
    ((∃ t code, t < max 15 timeout ∧ attempt t = .ok (some code)
        ∧ fetch_otp_via_imap attempt timeout poll hpoll = .ok code)
     ∨ (∃ le, fetch_otp_via_imap attempt timeout poll hpoll
          = .error (.timeout (otpTimeoutMsg timeout le))))
    ∧ (∀ t lastErr, max 15 timeout ≤ t →
        fetchLoop attempt timeout (max 15 timeout) poll hpoll t lastErr
          = .error (.timeout (otpTimeoutMsg timeout lastErr))) := by
  constructor
  · rcases fetchLoop_result attempt timeout poll hpoll (max 15 timeout)
      (max 15 timeout) 0 none (by omega) with
      ⟨t2, code, _, hlt, hat, heq⟩ | ⟨le, heq⟩
    · left
      exact ⟨t2, code, hlt, hat, heq⟩
    · right
      exact ⟨le, heq⟩
  · intro t lastErr ht
    rw [fetchLoop, dif_neg (by omega)]

/-- Witness for C6: an oracle that never finds a mail raises the timeout
error with no recorded exception. -/
theorem fetch_otp_via_imap_terminates_witness :
    (0 : Nat) < 5
    ∧ (((∃ t code, t < max 15 20
            ∧ (fun _ : Nat => (Except.ok none : Except Exc (Option String))) t
                = .ok (some code)
            ∧ fetch_otp_via_imap (fun _ => .ok none) 20 5 (by omega) = .ok code)
        ∨ (∃ le, fetch_otp_via_imap (fun _ => .ok none) 20 5 (by omega)
             = .error (.timeout (otpTimeoutMsg 20 le))))
       ∧ (∀ t lastErr, max 15 20 ≤ t →
           fetchLoop (fun _ => .ok none) 20 (max 15 20) 5 (by omega) t lastErr
             = .error (.timeout (otpTimeoutMsg 20 lastErr)))) :=
  ⟨by omega, fetch_otp_via_imap_terminates (fun _ => .ok none) 20 5 (by omega)⟩

end NaukriAuto
